import Mathlib

/-!
Shallow embedding of `ciftify/bin/ciftify_vol_result.py` and proofs about
its settings resolution and external-command sequencing.

The script resolves file paths from a subject id, a work directory and CLI
flags (class `UserSettings`), validates the referenced files, and then
builds a linear sequence of `wb_command` invocations (function
`run_ciftify_vol_result`).  The filesystem, the voxel-spacing reader
(`ciftify.niio.voxel_spacing`), the installation lookups
(`ciftify.config.find_*`) and the outcome of each external command are
modelled as oracles in the `FS` and `Config` structures; everything the
script itself computes (path strings, suffix checks, branch choices, exit
codes) is embedded as executable Lean functions mirroring the Python
statement by statement.
-/

namespace Ciftify

/-- Python's `str.endswith(suff)`, on the character lists of the strings. -/
def endswith (s suff : String) : Bool := suff.data.isSuffixOf s.data

/-- `posixpath.dirname` on a character list: keep everything up to and
including the last `/`, then strip trailing slashes unless the head is all
slashes (this is CPython's implementation, used by `os.path.dirname`). -/
def dirnameChars (p : List Char) : List Char :=
  match p.reverse.findIdx? (· == '/') with
  | none => []
  | some k =>
    let head := p.take (p.length - k)
    if head.all (· == '/') then head
    else (head.reverse.dropWhile (· == '/')).reverse

/-- `os.path.dirname` on strings. -/
def dirname (p : String) : String := String.mk (dirnameChars p.data)

/-- `posixpath.join` for one extra component: an absolute component resets
the path, otherwise a `/` separator is inserted unless the accumulated path
is empty or already ends in `/`. -/
def ospJoin2 (path b : String) : String :=
  if b.data.head? = some '/' then b
  else if path.data = [] ∨ path.data.getLast? = some '/' then path ++ b
  else path ++ "/" ++ b

/-- `os.path.join` folded over a list of extra components. -/
def ospJoin (a : String) (rest : List String) : String := rest.foldl ospJoin2 a

/-- Python truthiness of a docopt string option (`None` and `''` are falsy). -/
def truthy : Option String → Bool
  | none => false
  | some s => s != ""

/-- Oracles for everything the script observes about its environment: path
resolution (`os.path.realpath`), writability (`os.access(_, W_OK)`),
existence (`os.path.exists` / `os.path.isfile`), the voxel spacing a NIfTI
header reports (`ciftify.niio.voxel_spacing`, abstracted to a value compared
only for equality), and whether an external command exits with status 0. -/
structure FS where
  realpath : String → String
  writable_dir : String → Bool
  path_exists : String → Bool
  isfile : String → Bool
  voxel_spacing : String → List Nat
  run_ok : List String → Bool

/-- Modelled from the spec: the installation lookups
`ciftify.config.find_HCP_S1200_GroupAvg`, `ciftify.config.find_ciftify_global`
and `ciftify.config.find_fsl` live in `ciftify/config.py`, which is not part
of the sources here.  The spec describes them as fixed global atlas /
installation locations, so they are modelled as constants of the
environment, independent of the work directory. -/
structure Config where
  find_HCP_S1200_GroupAvg : String
  find_ciftify_global : String
  find_fsl : String
deriving DecidableEq, Repr

/-- The docopt argument dictionary, restricted to the keys the script reads.
`work_dir` stands for the work directory that the parent class
`WorkDirSettings` (not part of the sources here) resolves from
`--ciftify-work-dir` / `--hcp-data-dir` / the environment. -/
structure Arguments where
  subject : String
  vol : String
  output : String
  work_dir : String
  integer_labels : Bool
  resample : Bool
  dilate : Option String
  hcp_msmall : Bool
  surface_vol : Option String
  subcortical_vol : Option String
deriving DecidableEq, Repr

/-- The fields `UserSettings.__init__` stores, in source order. -/
structure Settings where
  integer_labels : Bool
  resample : Bool
  dilate_mm : Option String
  outputname : String
  use_ciftify_global : Bool
  subject : String
  surf_dir : String
  surf_mesh : String
  atlas_vol : String
  surf_roi_L : String
  surf_roi_R : String
  surface_nii : String
  subcortical_nii : String
  work_dir : String
deriving DecidableEq, Repr, Inhabited

/-- `UserSettings.get_output_filename`: realpath the user path, fail (exit 1)
if its directory is not writable, and append `.dscalar.nii` unless the name
already ends in `dscalar.nii` or `dtseries.nii`. -/
def get_output_filename (fs : FS) (user_outputname : String) : Except Nat String :=
  let outputname := fs.realpath user_outputname
  let output_dir := dirname outputname
  if ¬ fs.writable_dir output_dir then .error 1
  else if ¬ endswith outputname "dscalar.nii" ∧ ¬ endswith outputname "dtseries.nii" then
    .ok (outputname ++ ".dscalar.nii")
  else .ok outputname

/-- `UserSettings.use_ciftify_global`: the group-average sentinel subject. -/
def use_ciftify_global (hcp_subject : String) : Bool :=
  hcp_subject == "HCP_S1200_GroupAvg"

/-- `UserSettings.get_subject`: the sentinel is rewritten to `S1200`. -/
def get_subject (subject : String) : String :=
  if subject == "HCP_S1200_GroupAvg" then "S1200" else subject

/-- `UserSettings.get_surf_dir`: the global atlas directory for the sentinel,
`<work_dir>/<subject>/MNINonLinear/fsaverage_LR32k` otherwise. -/
def get_surf_dir (cfg : Config) (useGlobal : Bool) (work_dir subject : String) : String :=
  if useGlobal then cfg.find_HCP_S1200_GroupAvg
  else ospJoin work_dir [subject, "MNINonLinear", "fsaverage_LR32k"]

/-- `UserSettings.get_surface_mesh`. -/
def get_surface_mesh (useGlobal : Bool) (use_MSMall : Bool) : String :=
  if useGlobal then "_MSMAll.32k_fs_LR"
  else if use_MSMall then "_MSMAll.32k_fs_LR"
  else ".32k_fs_LR"

/-- The atlas volume path `UserSettings.get_atlas_vol` builds before its
existence check. -/
def atlas_vol_path (cfg : Config) (useGlobal : Bool) (work_dir subject : String) : String :=
  if useGlobal then
    ospJoin cfg.find_ciftify_global ["91282_Greyordinates", "Atlas_ROIs.2.nii.gz"]
  else ospJoin work_dir [subject, "MNINonLinear", "ROIs", "Atlas_ROIs.2.nii.gz"]

/-- `UserSettings.get_atlas_vol`: exit 1 when the atlas volume is missing. -/
def get_atlas_vol (fs : FS) (cfg : Config) (useGlobal : Bool) (work_dir subject : String) :
    Except Nat String :=
  let atlas_vol := atlas_vol_path cfg useGlobal work_dir subject
  if ¬ fs.path_exists atlas_vol then .error 1 else .ok atlas_vol

/-- The medial-wall ROI path `UserSettings.get_surf_roi` builds before its
existence check. -/
def surf_roi_path (cfg : Config) (useGlobal : Bool) (surf_dir subject hemi : String) : String :=
  if useGlobal then
    ospJoin cfg.find_ciftify_global
      ["91282_Greyordinates", hemi ++ ".atlasroi.32k_fs_LR.shape.gii"]
  else ospJoin surf_dir [subject ++ "." ++ hemi ++ ".atlasroi.32k_fs_LR.shape.gii"]

/-- `UserSettings.get_surf_roi`: exit 1 when the surface ROI is missing. -/
def get_surf_roi (fs : FS) (cfg : Config) (useGlobal : Bool) (surf_dir subject hemi : String) :
    Except Nat String :=
  let surf_roi := surf_roi_path cfg useGlobal surf_dir subject hemi
  if ¬ fs.path_exists surf_roi then .error 1 else .ok surf_roi

/-- The volume `UserSettings.get_surface_nii` falls back to: `--surface-vol`
when truthy, else the positional `<vol.nii.gz>`. -/
def surface_input (args : Arguments) : String :=
  if truthy args.surface_vol then args.surface_vol.getD "" else args.vol

/-- `UserSettings.get_surface_nii`: exit 1 when the chosen volume is not a
file (the second emptiness check of the source is unreachable but kept). -/
def get_surface_nii (fs : FS) (args : Arguments) : Except Nat String :=
  let surface_nii := surface_input args
  if ¬ fs.isfile surface_nii then .error 1
  else if surface_nii == "" then .error 1
  else .ok surface_nii

/-- The volume `UserSettings.get_subcortical_nii` falls back to:
`--subcortical-vol` when truthy, else the positional `<vol.nii.gz>`. -/
def subcortical_input (args : Arguments) : String :=
  if truthy args.subcortical_vol then args.subcortical_vol.getD "" else args.vol

/-- `UserSettings.get_subcortical_nii`: exit 1 when the chosen volume is not
a file, and, unless `--resample-nifti` was given, exit 1 when its voxel
spacing differs from the atlas volume's. -/
def get_subcortical_nii (fs : FS) (args : Arguments) (resample : Bool) (atlas_vol : String) :
    Except Nat String :=
  let subcortical_nii := subcortical_input args
  if ¬ fs.isfile subcortical_nii then .error 1
  else if ¬ resample ∧ fs.voxel_spacing subcortical_nii ≠ fs.voxel_spacing atlas_vol then
    .error 1
  else .ok subcortical_nii

/-- `UserSettings.__init__`: resolve every field in source order; the first
failing validation aborts the construction with the exit code it passes to
`sys.exit`. -/
def mkUserSettings (cfg : Config) (fs : FS) (args : Arguments) : Except Nat Settings :=
  match get_output_filename fs args.output with
  | .error e => .error e
  | .ok outputname =>
    match get_atlas_vol fs cfg (use_ciftify_global args.subject) args.work_dir
        (get_subject args.subject) with
    | .error e => .error e
    | .ok atlas_vol =>
      match get_surf_roi fs cfg (use_ciftify_global args.subject)
          (get_surf_dir cfg (use_ciftify_global args.subject) args.work_dir
            (get_subject args.subject))
          (get_subject args.subject) "L" with
      | .error e => .error e
      | .ok surf_roi_L =>
        match get_surf_roi fs cfg (use_ciftify_global args.subject)
            (get_surf_dir cfg (use_ciftify_global args.subject) args.work_dir
              (get_subject args.subject))
            (get_subject args.subject) "R" with
        | .error e => .error e
        | .ok surf_roi_R =>
          match get_surface_nii fs args with
          | .error e => .error e
          | .ok surface_nii =>
            match get_subcortical_nii fs args args.resample atlas_vol with
            | .error e => .error e
            | .ok subcortical_nii =>
              .ok { integer_labels := args.integer_labels
                    resample := args.resample
                    dilate_mm := args.dilate
                    outputname := outputname
                    use_ciftify_global := use_ciftify_global args.subject
                    subject := get_subject args.subject
                    surf_dir := get_surf_dir cfg (use_ciftify_global args.subject)
                      args.work_dir (get_subject args.subject)
                    surf_mesh := get_surface_mesh (use_ciftify_global args.subject)
                      args.hcp_msmall
                    atlas_vol := atlas_vol
                    surf_roi_L := surf_roi_L
                    surf_roi_R := surf_roi_R
                    surface_nii := surface_nii
                    subcortical_nii := subcortical_nii
                    work_dir := args.work_dir }

/-- The `-volume-to-surface-mapping` command for one hemisphere, with
`-enclosing` for integer labels and `-ribbon-constrained` (white and pial
surfaces) otherwise. -/
def surf_mapping_cmd (s : Settings) (tmpdir hemi : String) : List String :=
  let base := ["wb_command", "-volume-to-surface-mapping",
    s.surface_nii,
    ospJoin2 s.surf_dir (s.subject ++ "." ++ hemi ++ ".midthickness" ++ s.surf_mesh ++ ".surf.gii"),
    ospJoin2 tmpdir (hemi ++ ".func.gii")]
  if s.integer_labels then base ++ ["-enclosing"]
  else base ++ ["-ribbon-constrained",
    ospJoin2 s.surf_dir (s.subject ++ "." ++ hemi ++ ".white" ++ s.surf_mesh ++ ".surf.gii"),
    ospJoin2 s.surf_dir (s.subject ++ "." ++ hemi ++ ".pial" ++ s.surf_mesh ++ ".surf.gii")]

/-- The resampled subcortical volume path inside the temp directory. -/
def resampled_path (tmpdir : String) : String := ospJoin2 tmpdir "input_nii_r.nii.gz"

/-- The `-volume-affine-resample` step, present only with `--resample-nifti`;
`ENCLOSING_VOXEL` for integer labels, `CUBIC` otherwise. -/
def resample_cmds (s : Settings) (cfg : Config) (tmpdir : String) : List (List String) :=
  if s.resample then
    [["wb_command", "-volume-affine-resample",
      s.subcortical_nii,
      ospJoin cfg.find_fsl ["etc", "flirtsch/ident.mat"],
      s.atlas_vol,
      if s.integer_labels then "ENCLOSING_VOXEL" else "CUBIC",
      resampled_path tmpdir]]
  else []

/-- The subcortical volume handed to dense-CIFTI creation: the resample
output when resampling, the input volume unchanged otherwise. -/
def rinput_subcortical (s : Settings) (tmpdir : String) : String :=
  if s.resample then resampled_path tmpdir else s.subcortical_nii

/-- Where the dense-CIFTI step writes: a temp file when a dilation pass
follows, the final output name otherwise. -/
def dense_out (s : Settings) (tmpdir : String) : String :=
  if truthy s.dilate_mm then
    if endswith s.outputname "dtseries.nii" then ospJoin2 tmpdir "dense1.dtseries.nii"
    else ospJoin2 tmpdir "dense1.dscalar.nii"
  else s.outputname

/-- The dense-CIFTI creation variant, chosen by the output name's suffix. -/
def wb_subcommand (s : Settings) : String :=
  if endswith s.outputname "dtseries.nii" then "-cifti-create-dense-timeseries"
  else "-cifti-create-dense-scalar"

/-- The dense-CIFTI creation command combining volume and both metrics. -/
def dense_cmd (s : Settings) (tmpdir : String) : List String :=
  ["wb_command", wb_subcommand s,
   dense_out s tmpdir,
   "-volume", rinput_subcortical s tmpdir, s.atlas_vol,
   "-left-metric", ospJoin2 tmpdir "L.func.gii",
   "-roi-left", s.surf_roi_L,
   "-right-metric", ospJoin2 tmpdir "R.func.gii",
   "-roi-right", s.surf_roi_R]

/-- The `-cifti-dilate` step, present only when `--dilate` is truthy, with
`-nearest` appended for integer labels. -/
def dilate_cmds (s : Settings) (tmpdir : String) : List (List String) :=
  if truthy s.dilate_mm then
    let mm := s.dilate_mm.getD ""
    let base := ["wb_command", "-cifti-dilate",
      dense_out s tmpdir, "COLUMN",
      mm, mm,
      s.outputname,
      "-left-surface",
      ospJoin2 s.surf_dir (s.subject ++ ".L.midthickness" ++ s.surf_mesh ++ ".surf.gii"),
      "-right-surface",
      ospJoin2 s.surf_dir (s.subject ++ ".R.midthickness" ++ s.surf_mesh ++ ".surf.gii")]
    if s.integer_labels then [base ++ ["-nearest"]] else [base]
  else []

/-- `run_ciftify_vol_result`: the ordered command sequence the script issues
(surface mapping for L then R, optional resample, dense-CIFTI creation,
optional dilation). -/
def run_ciftify_vol_result (s : Settings) (cfg : Config) (tmpdir : String) : List (List String) :=
  [surf_mapping_cmd s tmpdir "L", surf_mapping_cmd s tmpdir "R"]
    ++ resample_cmds s cfg tmpdir
    ++ [dense_cmd s tmpdir]
    ++ dilate_cmds s tmpdir

/-- Modelled from the spec: `ciftify.utils.run` (in `ciftify/utils.py`, not
part of the sources here) blocks on each external command and, per the spec,
"any external command failure aborts the whole sequence" with exit code 1. -/
def execCmds (fs : FS) : List (List String) → Except Nat Unit
  | [] => .ok ()
  | c :: rest => if fs.run_ok c then execCmds fs rest else .error 1

/-- The prefix of the command sequence that is actually handed to the
external tool: everything up to and including the first failing command. -/
def executedCmds (fs : FS) : List (List String) → List (List String)
  | [] => []
  | c :: rest => if fs.run_ok c then c :: executedCmds fs rest else [c]

/-- The commands `main` actually runs: none at all when settings validation
exits, otherwise the executed prefix of the command sequence. -/
def main_executed (cfg : Config) (fs : FS) (args : Arguments) (tmpdir : String) :
    List (List String) :=
  match mkUserSettings cfg fs args with
  | .error _ => []
  | .ok s => executedCmds fs (run_ciftify_vol_result s cfg tmpdir)

/-- The process exit code of `main`: the settings-validation exit code when
construction fails, the command-failure exit code when a command fails, and
0 (`sys.exit(None)`) when the whole sequence completes. -/
def main_exit_code (cfg : Config) (fs : FS) (args : Arguments) (tmpdir : String) : Nat :=
  match mkUserSettings cfg fs args with
  | .error e => e
  | .ok s =>
    match execCmds fs (run_ciftify_vol_result s cfg tmpdir) with
    | .error e => e
    | .ok _ => 0

/-! ## Inversion lemmas for the settings resolver -/

theorem get_output_filename_error {fs : FS} {u : String} {e : Nat}
    (h : get_output_filename fs u = .error e) : e = 1 := by
  simp only [get_output_filename] at h
  split at h <;> try split at h
  all_goals simp_all

theorem get_output_filename_ok {fs : FS} {u out : String}
    (h : get_output_filename fs u = .ok out) :
    (endswith out "dscalar.nii" = true ∨ endswith out "dtseries.nii" = true ∨
      out = fs.realpath u ++ ".dscalar.nii") ∧
    (endswith (fs.realpath u) "dscalar.nii" = false →
      endswith (fs.realpath u) "dtseries.nii" = false →
      out = fs.realpath u ++ ".dscalar.nii") := by
  simp only [get_output_filename] at h
  split at h
  · exact absurd h (by simp)
  split at h
  · rw [Except.ok.injEq] at h
    subst h
    exact ⟨Or.inr (Or.inr rfl), fun _ _ => rfl⟩
  next hcond =>
    rw [Except.ok.injEq] at h
    subst h
    rw [not_and_or, not_not, not_not] at hcond
    constructor
    · rcases hcond with h1 | h1
      · exact Or.inl h1
      · exact Or.inr (Or.inl h1)
    · intro hf1 hf2
      rcases hcond with h1 | h1 <;> simp_all

theorem get_atlas_vol_error {fs : FS} {cfg : Config} {g : Bool} {wd subj : String} {e : Nat}
    (h : get_atlas_vol fs cfg g wd subj = .error e) : e = 1 := by
  simp only [get_atlas_vol] at h
  split at h <;> simp_all

theorem get_atlas_vol_ok {fs : FS} {cfg : Config} {g : Bool} {wd subj v : String}
    (h : get_atlas_vol fs cfg g wd subj = .ok v) :
    v = atlas_vol_path cfg g wd subj ∧ fs.path_exists v = true := by
  simp only [get_atlas_vol] at h
  split at h <;> simp_all

theorem get_surf_roi_error {fs : FS} {cfg : Config} {g : Bool} {sd subj hemi : String} {e : Nat}
    (h : get_surf_roi fs cfg g sd subj hemi = .error e) : e = 1 := by
  simp only [get_surf_roi] at h
  split at h <;> simp_all

theorem get_surf_roi_ok {fs : FS} {cfg : Config} {g : Bool} {sd subj hemi v : String}
    (h : get_surf_roi fs cfg g sd subj hemi = .ok v) :
    v = surf_roi_path cfg g sd subj hemi ∧ fs.path_exists v = true := by
  simp only [get_surf_roi] at h
  split at h <;> simp_all

theorem get_surface_nii_error {fs : FS} {args : Arguments} {e : Nat}
    (h : get_surface_nii fs args = .error e) : e = 1 := by
  simp only [get_surface_nii] at h
  split at h <;> try split at h
  all_goals simp_all

theorem get_surface_nii_ok {fs : FS} {args : Arguments} {v : String}
    (h : get_surface_nii fs args = .ok v) :
    v = surface_input args ∧ fs.isfile v = true := by
  simp only [get_surface_nii] at h
  split at h <;> try split at h
  all_goals simp_all

theorem get_subcortical_nii_error {fs : FS} {args : Arguments} {r : Bool} {av : String} {e : Nat}
    (h : get_subcortical_nii fs args r av = .error e) : e = 1 := by
  simp only [get_subcortical_nii] at h
  split at h <;> try split at h
  all_goals simp_all

theorem get_subcortical_nii_ok {fs : FS} {args : Arguments} {r : Bool} {av v : String}
    (h : get_subcortical_nii fs args r av = .ok v) :
    v = subcortical_input args ∧ fs.isfile v = true ∧
      (r = false → fs.voxel_spacing (subcortical_input args) = fs.voxel_spacing av) := by
  simp only [get_subcortical_nii] at h
  split at h <;> try split at h
  all_goals simp_all

/-- Every failure of `UserSettings.__init__` calls `sys.exit(1)`. -/
theorem mkUserSettings_error {cfg : Config} {fs : FS} {args : Arguments} {e : Nat}
    (h : mkUserSettings cfg fs args = .error e) : e = 1 := by
  unfold mkUserSettings at h
  cases h0 : get_output_filename fs args.output with
  | error e0 =>
    simp only [h0, Except.error.injEq] at h
    subst h; exact get_output_filename_error h0
  | ok outname =>
  simp only [h0] at h
  cases h1 : get_atlas_vol fs cfg (use_ciftify_global args.subject) args.work_dir
      (get_subject args.subject) with
  | error e1 =>
    simp only [h1, Except.error.injEq] at h
    subst h; exact get_atlas_vol_error h1
  | ok atlas_vol =>
  simp only [h1] at h
  cases h2 : get_surf_roi fs cfg (use_ciftify_global args.subject)
      (get_surf_dir cfg (use_ciftify_global args.subject) args.work_dir
        (get_subject args.subject)) (get_subject args.subject) "L" with
  | error e2 =>
    simp only [h2, Except.error.injEq] at h
    subst h; exact get_surf_roi_error h2
  | ok roiL =>
  simp only [h2] at h
  cases h3 : get_surf_roi fs cfg (use_ciftify_global args.subject)
      (get_surf_dir cfg (use_ciftify_global args.subject) args.work_dir
        (get_subject args.subject)) (get_subject args.subject) "R" with
  | error e3 =>
    simp only [h3, Except.error.injEq] at h
    subst h; exact get_surf_roi_error h3
  | ok roiR =>
  simp only [h3] at h
  cases h4 : get_surface_nii fs args with
  | error e4 =>
    simp only [h4, Except.error.injEq] at h
    subst h; exact get_surface_nii_error h4
  | ok snii =>
  simp only [h4] at h
  cases h5 : get_subcortical_nii fs args args.resample atlas_vol with
  | error e5 =>
    simp only [h5, Except.error.injEq] at h
    subst h; exact get_subcortical_nii_error h5
  | ok scnii =>
    simp only [h5] at h
    exact absurd h (by simp)

set_option linter.unnecessarySimpa false in
/-- Inversion of a successful `UserSettings.__init__`: how each stored field
was resolved and which validations were passed. -/
theorem mkUserSettings_ok_parts {cfg : Config} {fs : FS} {args : Arguments} {s : Settings}
    (h : mkUserSettings cfg fs args = .ok s) :
    get_output_filename fs args.output = .ok s.outputname ∧
    s.integer_labels = args.integer_labels ∧
    s.resample = args.resample ∧
    s.dilate_mm = args.dilate ∧
    s.use_ciftify_global = use_ciftify_global args.subject ∧
    s.subject = get_subject args.subject ∧
    s.surf_dir = get_surf_dir cfg (use_ciftify_global args.subject) args.work_dir
      (get_subject args.subject) ∧
    s.surf_mesh = get_surface_mesh (use_ciftify_global args.subject) args.hcp_msmall ∧
    s.atlas_vol = atlas_vol_path cfg (use_ciftify_global args.subject) args.work_dir
      (get_subject args.subject) ∧
    fs.path_exists s.atlas_vol = true ∧
    fs.path_exists s.surf_roi_L = true ∧
    fs.path_exists s.surf_roi_R = true ∧
    s.surface_nii = surface_input args ∧
    fs.isfile s.surface_nii = true ∧
    s.subcortical_nii = subcortical_input args ∧
    fs.isfile s.subcortical_nii = true ∧
    (args.resample = false →
      fs.voxel_spacing (subcortical_input args) = fs.voxel_spacing s.atlas_vol) := by
  unfold mkUserSettings at h
  cases h0 : get_output_filename fs args.output with
  | error e0 => simp only [h0] at h; exact absurd h (by simp)
  | ok outname =>
  simp only [h0] at h
  cases h1 : get_atlas_vol fs cfg (use_ciftify_global args.subject) args.work_dir
      (get_subject args.subject) with
  | error e1 => simp only [h1] at h; exact absurd h (by simp)
  | ok atlas_vol =>
  simp only [h1] at h
  cases h2 : get_surf_roi fs cfg (use_ciftify_global args.subject)
      (get_surf_dir cfg (use_ciftify_global args.subject) args.work_dir
        (get_subject args.subject)) (get_subject args.subject) "L" with
  | error e2 => simp only [h2] at h; exact absurd h (by simp)
  | ok roiL =>
  simp only [h2] at h
  cases h3 : get_surf_roi fs cfg (use_ciftify_global args.subject)
      (get_surf_dir cfg (use_ciftify_global args.subject) args.work_dir
        (get_subject args.subject)) (get_subject args.subject) "R" with
  | error e3 => simp only [h3] at h; exact absurd h (by simp)
  | ok roiR =>
  simp only [h3] at h
  cases h4 : get_surface_nii fs args with
  | error e4 => simp only [h4] at h; exact absurd h (by simp)
  | ok snii =>
  simp only [h4] at h
  cases h5 : get_subcortical_nii fs args args.resample atlas_vol with
  | error e5 => simp only [h5] at h; exact absurd h (by simp)
  | ok scnii =>
    simp only [h5, Except.ok.injEq] at h
    subst h
    refine ⟨by simpa using h0, rfl, rfl, rfl, rfl, rfl, rfl, rfl,
      by simpa using (get_atlas_vol_ok h1).1,
      by simpa using (get_atlas_vol_ok h1).2,
      by simpa using (get_surf_roi_ok h2).2,
      by simpa using (get_surf_roi_ok h3).2,
      by simpa using (get_surface_nii_ok h4).1,
      by simpa using (get_surface_nii_ok h4).2,
      by simpa using (get_subcortical_nii_ok h5).1,
      by simpa using (get_subcortical_nii_ok h5).2.1, ?_⟩
    intro hr
    simpa using (get_subcortical_nii_ok h5).2.2 hr

/-! ## Concrete environments used to witness the theorems -/

/-- A concrete installation configuration. -/
def cfgW : Config :=
  { find_HCP_S1200_GroupAvg := "/opt/atlas/HCP_S1200_GroupAvg"
    find_ciftify_global := "/opt/ciftify/data"
    find_fsl := "/opt/fsl" }

/-- A concrete ordinary-subject invocation. -/
def argsW : Arguments :=
  { subject := "sub1"
    vol := "/in/vol.nii.gz"
    output := "/out/res.dscalar.nii"
    work_dir := "/wd"
    integer_labels := false
    resample := false
    dilate := none
    hcp_msmall := false
    surface_vol := none
    subcortical_vol := none }

/-- The atlas volume `argsW` resolves to. -/
def atlasW : String := "/wd/sub1/MNINonLinear/ROIs/Atlas_ROIs.2.nii.gz"

/-- The left surface ROI `argsW` resolves to. -/
def roiLW : String := "/wd/sub1/MNINonLinear/fsaverage_LR32k/sub1.L.atlasroi.32k_fs_LR.shape.gii"

/-- The right surface ROI `argsW` resolves to. -/
def roiRW : String := "/wd/sub1/MNINonLinear/fsaverage_LR32k/sub1.R.atlasroi.32k_fs_LR.shape.gii"

/-- A filesystem on which exactly the validated paths of `argsW` are
present: the atlas volume, the two ROI masks and the input volume — but no
surface mesh (`.surf.gii`) file.  Every directory is writable, voxel
spacings agree, every external command succeeds. -/
def fsW : FS :=
  { realpath := fun p => p
    writable_dir := fun _ => true
    path_exists := fun p => p == atlasW || p == roiLW || p == roiRW
    isfile := fun p => p == "/in/vol.nii.gz"
    voxel_spacing := fun _ => [2, 2, 2]
    run_ok := fun _ => true }

/-- The settings `UserSettings.__init__` produces for `argsW` on `fsW`. -/
def settingsW : Settings :=
  { integer_labels := false
    resample := false
    dilate_mm := none
    outputname := "/out/res.dscalar.nii"
    use_ciftify_global := false
    subject := "sub1"
    surf_dir := "/wd/sub1/MNINonLinear/fsaverage_LR32k"
    surf_mesh := ".32k_fs_LR"
    atlas_vol := atlasW
    surf_roi_L := roiLW
    surf_roi_R := roiRW
    surface_nii := "/in/vol.nii.gz"
    subcortical_nii := "/in/vol.nii.gz"
    work_dir := "/wd" }

/-- `fsW` with a voxel spacing that disagrees between the input volume and
everything else (in particular the atlas volume). -/
def fsMismatch : FS :=
  { fsW with voxel_spacing := fun p => if p == "/in/vol.nii.gz" then [3, 3, 3] else [2, 2, 2] }

/-- A concrete group-average invocation (`--HCP-MSMAll` not passed). -/
def argsG : Arguments :=
  { argsW with subject := "HCP_S1200_GroupAvg" }

/-- The global atlas volume the sentinel subject resolves to. -/
def atlasG : String := "/opt/ciftify/data/91282_Greyordinates/Atlas_ROIs.2.nii.gz"

/-- The global left surface ROI the sentinel subject resolves to. -/
def roiLG : String := "/opt/ciftify/data/91282_Greyordinates/L.atlasroi.32k_fs_LR.shape.gii"

/-- The global right surface ROI the sentinel subject resolves to. -/
def roiRG : String := "/opt/ciftify/data/91282_Greyordinates/R.atlasroi.32k_fs_LR.shape.gii"

/-- A filesystem carrying the global atlas files and the input volume. -/
def fsG : FS :=
  { fsW with path_exists := fun p => p == atlasG || p == roiLG || p == roiRG }

/-- The settings `UserSettings.__init__` produces for `argsG` on `fsG`. -/
def settingsG : Settings :=
  { integer_labels := false
    resample := false
    dilate_mm := none
    outputname := "/out/res.dscalar.nii"
    use_ciftify_global := true
    subject := "S1200"
    surf_dir := "/opt/atlas/HCP_S1200_GroupAvg"
    surf_mesh := "_MSMAll.32k_fs_LR"
    atlas_vol := atlasG
    surf_roi_L := roiLG
    surf_roi_R := roiRG
    surface_nii := "/in/vol.nii.gz"
    subcortical_nii := "/in/vol.nii.gz"
    work_dir := "/wd" }

/-! ## Helper lemmas about the path primitives -/

theorem endswith_append_of_endswith (s : String) {t u : String} (h : endswith t u = true) :
    endswith (s ++ t) u = true := by
  unfold endswith at *
  rw [List.isSuffixOf_iff_suffix] at *
  rw [String.data_append]
  exact h.trans (List.suffix_append _ _)

theorem ospJoin2_of_rel (a b : String) (hb : b.data.head? ≠ some '/')
    (ha : a.data ≠ []) (ha' : a.data.getLast? ≠ some '/') :
    ospJoin2 a b = a ++ "/" ++ b := by
  unfold ospJoin2
  rw [if_neg hb, if_neg (not_or.mpr ⟨ha, ha'⟩)]

/-! ## The claims -/

/-- C4, counterexample: for the user-supplied output path
`/out/xdscalar.nii` (no dot before `dscalar.nii`) the resolver keeps the
name unchanged, so the resolved output filename ends in neither
`.dscalar.nii` nor `.dtseries.nii`, and nothing was appended. -/
theorem C4_counterexample :
    get_output_filename fsW "/out/xdscalar.nii" = .ok "/out/xdscalar.nii" ∧
    endswith "/out/xdscalar.nii" ".dscalar.nii" = false ∧
    endswith "/out/xdscalar.nii" ".dtseries.nii" = false ∧
    "/out/xdscalar.nii" ≠ fsW.realpath "/out/xdscalar.nii" ++ ".dscalar.nii" :=
  ⟨rfl, by decide, by decide, by decide⟩

/-- C4 (amended): every resolved output filename ends in `dscalar.nii` or
`dtseries.nii` (suffix test without a required dot); when the realpath of
the user-supplied path ends in neither of these, `.dscalar.nii` is appended
to it. -/
theorem C4_output_suffix (fs : FS) (user out : String)
    (h : get_output_filename fs user = .ok out) :
    (endswith out "dscalar.nii" = true ∨ endswith out "dtseries.nii" = true) ∧
    (endswith (fs.realpath user) "dscalar.nii" = false →
      endswith (fs.realpath user) "dtseries.nii" = false →
      out = fs.realpath user ++ ".dscalar.nii") := by
  obtain ⟨h1, h2⟩ := get_output_filename_ok h
  refine ⟨?_, h2⟩
  rcases h1 with h1 | h1 | h1
  · exact Or.inl h1
  · exact Or.inr h1
  · subst h1
    exact Or.inl (endswith_append_of_endswith _ (by decide))

/-- C4, witness: instantiating `C4_output_suffix` on the concrete user path
`/out/plain`, which gets `.dscalar.nii` appended. -/
theorem C4_witness :
    (endswith "/out/plain.dscalar.nii" "dscalar.nii" = true ∨
      endswith "/out/plain.dscalar.nii" "dtseries.nii" = true) ∧
    (endswith (fsW.realpath "/out/plain") "dscalar.nii" = false →
      endswith (fsW.realpath "/out/plain") "dtseries.nii" = false →
      "/out/plain.dscalar.nii" = fsW.realpath "/out/plain" ++ ".dscalar.nii") :=
  C4_output_suffix fsW "/out/plain" "/out/plain.dscalar.nii" rfl

/-- C5: for every subject other than the group-average sentinel (with
non-empty work directory and subject that do not start or end in a path
separator), the resolved surface directory is
`<work_dir>/<subject>/MNINonLinear/fsaverage_LR32k`. -/
theorem C5_surf_dir (cfg : Config) (fs : FS) (args : Arguments) (s : Settings)
    (h : mkUserSettings cfg fs args = .ok s)
    (hsent : args.subject ≠ "HCP_S1200_GroupAvg")
    (hwd : args.work_dir.data ≠ [])
    (hwd' : args.work_dir.data.getLast? ≠ some '/')
    (hsub : args.subject.data ≠ [])
    (hsub1 : args.subject.data.head? ≠ some '/')
    (hsub2 : args.subject.data.getLast? ≠ some '/') :
    s.surf_dir = args.work_dir ++ "/" ++ args.subject ++ "/MNINonLinear/fsaverage_LR32k" := by
  obtain ⟨-, -, -, -, -, -, hsdir, -⟩ := mkUserSettings_ok_parts h
  rw [hsdir]
  have hug : use_ciftify_global args.subject = false := by
    simp [use_ciftify_global, hsent]
  have hgs : get_subject args.subject = args.subject := by
    simp [get_subject, hsent]
  rw [hug, hgs]
  unfold get_surf_dir ospJoin
  simp only [Bool.false_eq_true, if_false, List.foldl]
  rw [ospJoin2_of_rel _ _ hsub1 hwd hwd']
  have h2ne : (args.work_dir ++ "/" ++ args.subject).data ≠ [] := by
    simp [String.data_append, hsub]
  have h2last : (args.work_dir ++ "/" ++ args.subject).data.getLast? ≠ some '/' := by
    rw [String.data_append, List.getLast?_append_of_ne_nil _ hsub]
    exact hsub2
  rw [ospJoin2_of_rel _ _ (by decide) h2ne h2last]
  have h3ne : (args.work_dir ++ "/" ++ args.subject ++ "/" ++ "MNINonLinear").data ≠ [] := by
    simp [String.data_append]
  have h3last :
      (args.work_dir ++ "/" ++ args.subject ++ "/" ++ "MNINonLinear").data.getLast?
        ≠ some '/' := by
    rw [String.data_append, List.getLast?_append_of_ne_nil _ (by decide)]
    decide
  rw [ospJoin2_of_rel _ _ (by decide) h3ne h3last]
  simp only [String.append_assoc]
  rfl

/-- C5, witness: instantiating `C5_surf_dir` on the concrete ordinary
subject `sub1` with work directory `/wd`. -/
theorem C5_witness :
    settingsW.surf_dir = "/wd" ++ "/" ++ "sub1" ++ "/MNINonLinear/fsaverage_LR32k" :=
  C5_surf_dir cfgW fsW argsW settingsW rfl (by decide) (by decide) (by decide)
    (by decide) (by decide) (by decide)

/-- C6: for the group-average sentinel subject, the resolved surface
directory, atlas volume and both surface ROI paths are built from the fixed
global installation lookups alone; the work directory does not occur in
them (the right-hand sides below do not mention `wd`). -/
theorem C6_groupavg_paths_fixed (cfg : Config) (wd : String) :
    get_surf_dir cfg (use_ciftify_global "HCP_S1200_GroupAvg") wd
        (get_subject "HCP_S1200_GroupAvg") = cfg.find_HCP_S1200_GroupAvg ∧
    atlas_vol_path cfg (use_ciftify_global "HCP_S1200_GroupAvg") wd
        (get_subject "HCP_S1200_GroupAvg") =
      ospJoin cfg.find_ciftify_global ["91282_Greyordinates", "Atlas_ROIs.2.nii.gz"] ∧
    surf_roi_path cfg (use_ciftify_global "HCP_S1200_GroupAvg")
        (get_surf_dir cfg (use_ciftify_global "HCP_S1200_GroupAvg") wd
          (get_subject "HCP_S1200_GroupAvg"))
        (get_subject "HCP_S1200_GroupAvg") "L" =
      ospJoin cfg.find_ciftify_global
        ["91282_Greyordinates", "L.atlasroi.32k_fs_LR.shape.gii"] ∧
    surf_roi_path cfg (use_ciftify_global "HCP_S1200_GroupAvg")
        (get_surf_dir cfg (use_ciftify_global "HCP_S1200_GroupAvg") wd
          (get_subject "HCP_S1200_GroupAvg"))
        (get_subject "HCP_S1200_GroupAvg") "R" =
      ospJoin cfg.find_ciftify_global
        ["91282_Greyordinates", "R.atlasroi.32k_fs_LR.shape.gii"] :=
  ⟨rfl, rfl, rfl, rfl⟩

/-- C9: settings built for the sentinel subject store subject `S1200` and
mesh suffix `_MSMAll.32k_fs_LR` whatever the `--HCP-MSMAll` flag was; for
any other subject the stored subject is unchanged and the suffix is
`_MSMAll.32k_fs_LR` exactly when the flag is set, `.32k_fs_LR` otherwise. -/
theorem C9_groupavg_subject_mesh (cfg : Config) (fs : FS) (args : Arguments) (s : Settings)
    (h : mkUserSettings cfg fs args = .ok s) :
    (args.subject = "HCP_S1200_GroupAvg" →
      s.subject = "S1200" ∧ s.surf_mesh = "_MSMAll.32k_fs_LR") ∧
    (args.subject ≠ "HCP_S1200_GroupAvg" →
      s.subject = args.subject ∧
      s.surf_mesh = (if args.hcp_msmall then "_MSMAll.32k_fs_LR" else ".32k_fs_LR")) := by
  obtain ⟨-, -, -, -, -, hsub, -, hmesh, -⟩ := mkUserSettings_ok_parts h
  constructor
  · intro hs
    rw [hsub, hmesh, hs]
    exact ⟨rfl, rfl⟩
  · intro hs
    constructor
    · rw [hsub]
      simp [get_subject, hs]
    · rw [hmesh]
      simp [get_surface_mesh, use_ciftify_global, hs]

/-- C9, witness: instantiating `C9_groupavg_subject_mesh` on the concrete
sentinel invocation `argsG` (flag unset) and the ordinary invocation
`argsW`. -/
theorem C9_witness :
    (settingsG.subject = "S1200" ∧ settingsG.surf_mesh = "_MSMAll.32k_fs_LR") ∧
    (settingsW.subject = argsW.subject ∧
      settingsW.surf_mesh = (if argsW.hcp_msmall then "_MSMAll.32k_fs_LR" else ".32k_fs_LR")) :=
  ⟨(C9_groupavg_subject_mesh cfgW fsG argsG settingsG rfl).1 rfl,
   (C9_groupavg_subject_mesh cfgW fsW argsW settingsW rfl).2 (by decide)⟩

/-- Every failure of the (spec-modelled) command executor carries exit code 1. -/
theorem execCmds_error {fs : FS} {l : List (List String)} {e : Nat}
    (h : execCmds fs l = .error e) : e = 1 := by
  induction l with
  | nil => simp [execCmds] at h
  | cons c rest ih =>
    simp only [execCmds] at h
    split at h
    · exact ih h
    · simp_all

/-- C1: when `--resample-nifti` is unset and the voxel spacing of the
subcortical input volume differs from the atlas volume's, the process exits
with a non-zero code and no external command is ever invoked. -/
theorem C1_voxel_mismatch_fatal (cfg : Config) (fs : FS) (args : Arguments) (tmpdir : String)
    (hres : args.resample = false)
    (hmm : fs.voxel_spacing (subcortical_input args) ≠
      fs.voxel_spacing (atlas_vol_path cfg (use_ciftify_global args.subject) args.work_dir
        (get_subject args.subject))) :
    main_exit_code cfg fs args tmpdir ≠ 0 ∧ main_executed cfg fs args tmpdir = [] := by
  cases hmk : mkUserSettings cfg fs args with
  | error e =>
    constructor
    · simp only [main_exit_code, hmk]
      rw [mkUserSettings_error hmk]
      exact one_ne_zero
    · simp only [main_executed, hmk]
  | ok s =>
    exfalso
    obtain ⟨-, -, -, -, -, -, -, -, hap, -, -, -, -, -, -, -, hsp⟩ :=
      mkUserSettings_ok_parts hmk
    have := hsp hres
    rw [hap] at this
    exact hmm this

/-- C1, witness: instantiating `C1_voxel_mismatch_fatal` on the concrete
invocation `argsW` over the filesystem `fsMismatch`, whose input volume
reports spacing 3mm against the 2mm atlas. -/
theorem C1_witness :
    argsW.resample = false ∧
    fsMismatch.voxel_spacing (subcortical_input argsW) ≠
      fsMismatch.voxel_spacing (atlas_vol_path cfgW (use_ciftify_global argsW.subject)
        argsW.work_dir (get_subject argsW.subject)) ∧
    (main_exit_code cfgW fsMismatch argsW "/tmp" ≠ 0 ∧
      main_executed cfgW fsMismatch argsW "/tmp" = []) :=
  ⟨rfl, by decide, C1_voxel_mismatch_fatal cfgW fsMismatch argsW "/tmp" rfl (by decide)⟩

/-- C3, counterexample: on the filesystem `fsW` only the atlas volume, the
two ROI masks and the input volume exist, yet settings construction
succeeds and the full command sequence runs even though it references the
(non-existent) left midthickness surface mesh — so not every referenced
path exists before the first external command. -/
theorem C3_counterexample :
    mkUserSettings cfgW fsW argsW = .ok settingsW ∧
    "/wd/sub1/MNINonLinear/fsaverage_LR32k/sub1.L.midthickness.32k_fs_LR.surf.gii"
        ∈ (run_ciftify_vol_result settingsW cfgW "/tmp").flatten ∧
    fsW.path_exists
      "/wd/sub1/MNINonLinear/fsaverage_LR32k/sub1.L.midthickness.32k_fs_LR.surf.gii" = false ∧
    fsW.isfile
      "/wd/sub1/MNINonLinear/fsaverage_LR32k/sub1.L.midthickness.32k_fs_LR.surf.gii" = false ∧
    main_executed cfgW fsW argsW "/tmp" = run_ciftify_vol_result settingsW cfgW "/tmp" ∧
    run_ciftify_vol_result settingsW cfgW "/tmp" ≠ [] :=
  ⟨rfl, by decide, rfl, rfl, rfl, by decide⟩

/-- C3 (amended): before the first external command runs, the atlas volume,
both surface ROI masks and the surface and subcortical input volumes have
been checked to exist, and any failed check is fatal (non-zero exit, no
external command invoked, no retry); the per-hemisphere midthickness, white
and pial surface meshes referenced by the commands are not checked. -/
theorem C3_checked_paths (cfg : Config) (fs : FS) (args : Arguments) (tmpdir : String) :
    (∀ s, mkUserSettings cfg fs args = .ok s →
      fs.path_exists s.atlas_vol = true ∧ fs.path_exists s.surf_roi_L = true ∧
      fs.path_exists s.surf_roi_R = true ∧ fs.isfile s.surface_nii = true ∧
      fs.isfile s.subcortical_nii = true) ∧
    (∀ e, mkUserSettings cfg fs args = .error e →
      e ≠ 0 ∧ main_executed cfg fs args tmpdir = []) := by
  constructor
  · intro s hs
    obtain ⟨-, -, -, -, -, -, -, -, -, hae, hrl, hrr, -, hsf, -, hscf, -⟩ :=
      mkUserSettings_ok_parts hs
    exact ⟨hae, hrl, hrr, hsf, hscf⟩
  · intro e he
    constructor
    · rw [mkUserSettings_error he]
      exact one_ne_zero
    · simp only [main_executed, he]

/-- C3, witness: instantiating `C3_checked_paths` on the concrete success
`argsW`/`fsW` (first part) and on the failing `fsMismatch` run (second
part). -/
theorem C3_witness :
    (fsW.path_exists settingsW.atlas_vol = true ∧
      fsW.path_exists settingsW.surf_roi_L = true ∧
      fsW.path_exists settingsW.surf_roi_R = true ∧
      fsW.isfile settingsW.surface_nii = true ∧
      fsW.isfile settingsW.subcortical_nii = true) ∧
    ((1 : Nat) ≠ 0 ∧ main_executed cfgW fsMismatch argsW "/tmp" = []) :=
  ⟨(C3_checked_paths cfgW fsW argsW "/tmp").1 settingsW rfl,
   (C3_checked_paths cfgW fsMismatch argsW "/tmp").2 1 rfl⟩

/-- Whether the whole pipeline (settings validation followed by every
external command) completes. -/
def pipeline_ok (cfg : Config) (fs : FS) (args : Arguments) (tmpdir : String) : Bool :=
  match mkUserSettings cfg fs args with
  | .error _ => false
  | .ok s =>
    match execCmds fs (run_ciftify_vol_result s cfg tmpdir) with
    | .error _ => false
    | .ok _ => true

/-- C8: the process exit code is 0 exactly when validation and the full
command sequence complete, and 1 on any validation or external-command
failure (external command failure handling is modelled from the spec, see
`execCmds`). -/
theorem C8_exit_codes (cfg : Config) (fs : FS) (args : Arguments) (tmpdir : String) :
    main_exit_code cfg fs args tmpdir =
      (if pipeline_ok cfg fs args tmpdir then 0 else 1) := by
  unfold main_exit_code pipeline_ok
  cases hmk : mkUserSettings cfg fs args with
  | error e => simp [mkUserSettings_error hmk]
  | ok s =>
    cases hex : execCmds fs (run_ciftify_vol_result s cfg tmpdir) with
    | error e => simp [hex, execCmds_error hex]
    | ok u => simp [hex]

/-- C2: the two surface-mapping commands (one per hemisphere) end in
`-enclosing` when `--integer-labels` is set and in `-ribbon-constrained`
followed by the white and pial surfaces otherwise, and the dilation
command (present exactly when `--dilate` is given) ends in `-nearest`
exactly when `--integer-labels` is set.  The suffixes past the fixed
five (resp. eleven) leading arguments of each command are compared. -/
theorem C2_mapping_mode_flags (s : Settings) (cfg : Config) (tmpdir : String) :
    ((run_ciftify_vol_result s cfg tmpdir).filter
        (fun c => (c)[1]? == some "-volume-to-surface-mapping")).map (fun c => c.drop 5) =
      (if s.integer_labels then [["-enclosing"], ["-enclosing"]]
       else
        [["-ribbon-constrained",
          ospJoin2 s.surf_dir (s.subject ++ "." ++ "L" ++ ".white" ++ s.surf_mesh ++ ".surf.gii"),
          ospJoin2 s.surf_dir (s.subject ++ "." ++ "L" ++ ".pial" ++ s.surf_mesh ++ ".surf.gii")],
         ["-ribbon-constrained",
          ospJoin2 s.surf_dir (s.subject ++ "." ++ "R" ++ ".white" ++ s.surf_mesh ++ ".surf.gii"),
          ospJoin2 s.surf_dir (s.subject ++ "." ++ "R" ++ ".pial" ++ s.surf_mesh ++ ".surf.gii")]]) ∧
    ((run_ciftify_vol_result s cfg tmpdir).filter
        (fun c => (c)[1]? == some "-cifti-dilate")).map (fun c => c.drop 11) =
      (if truthy s.dilate_mm then
         (if s.integer_labels then [["-nearest"]] else [[]])
       else []) := by
  cases hI : s.integer_labels <;> cases hR : s.resample <;>
    cases hD : truthy s.dilate_mm <;>
    cases hT : endswith s.outputname "dtseries.nii" <;>
    simp [run_ciftify_vol_result, surf_mapping_cmd, resample_cmds, dense_cmd, dilate_cmds,
      wb_subcommand, dense_out, hI, hR, hD, hT]

/-- C7: exactly one dense-CIFTI creation command appears in the sequence,
and it uses the dense-timeseries variant exactly when the resolved output
filename ends in `dtseries.nii`, the dense-scalar variant otherwise. -/
theorem C7_dense_variant (s : Settings) (cfg : Config) (tmpdir : String) :
    ((run_ciftify_vol_result s cfg tmpdir).filter
        (fun c => (c)[1]? == some "-cifti-create-dense-timeseries"
          || (c)[1]? == some "-cifti-create-dense-scalar")).map (fun c => (c)[1]?) =
      [some (if endswith s.outputname "dtseries.nii"
             then "-cifti-create-dense-timeseries" else "-cifti-create-dense-scalar")] := by
  cases hI : s.integer_labels <;> cases hR : s.resample <;>
    cases hD : truthy s.dilate_mm <;>
    cases hT : endswith s.outputname "dtseries.nii" <;>
    simp [run_ciftify_vol_result, surf_mapping_cmd, resample_cmds, dense_cmd, dilate_cmds,
      wb_subcommand, dense_out, hI, hR, hD, hT]

/-- C10: with `--resample-nifti` set, exactly one affine-resample command
appears, reading the subcortical input, with method `ENCLOSING_VOXEL`
exactly when `--integer-labels` is set and `CUBIC` otherwise, writing the
temp path that the dense-CIFTI command then reads as its `-volume`; with
the flag unset, no affine-resample command appears and the dense-CIFTI
command reads the subcortical input volume unchanged. -/
theorem C10_resample_method_and_feed (s : Settings) (cfg : Config) (tmpdir : String) :
    ((run_ciftify_vol_result s cfg tmpdir).filter
        (fun c => (c)[1]? == some "-volume-affine-resample")).map
        (fun c => ((c)[2]?, (c)[5]?, (c)[6]?)) =
      (if s.resample then
        [(some s.subcortical_nii,
          some (if s.integer_labels then "ENCLOSING_VOXEL" else "CUBIC"),
          some (resampled_path tmpdir))]
       else []) ∧
    ((run_ciftify_vol_result s cfg tmpdir).filter
        (fun c => (c)[1]? == some "-cifti-create-dense-timeseries"
          || (c)[1]? == some "-cifti-create-dense-scalar")).map (fun c => (c)[4]?) =
      [some (if s.resample then resampled_path tmpdir else s.subcortical_nii)] := by
  cases hI : s.integer_labels <;> cases hR : s.resample <;>
    cases hD : truthy s.dilate_mm <;>
    cases hT : endswith s.outputname "dtseries.nii" <;>
    simp [run_ciftify_vol_result, surf_mapping_cmd, resample_cmds, dense_cmd, dilate_cmds,
      wb_subcommand, dense_out, rinput_subcortical, hI, hR, hD, hT]

end Ciftify
